import Mathlib

/-!
Shallow embedding of the sharayunet photo-sharing application (`app.py`)
together with proofs about its route handlers, media-kind detection and the
startup migrations.

Modelling conventions:
* SQLite tables become Lean lists of row structures; autoincrement rowids are
  modelled by explicit counters carried in the `DB` state.
* `created_at` timestamps are omitted: no verified property mentions time.
* The Cloudinary delegate is an oracle: the result of the i-th `upload` call
  is `delegate i : Option (String × String)` giving `(secure_url, public_id)`,
  with `none` meaning the call raises; the outcome of the i-th `destroy` call
  is `destroyOk i : Bool`, `false` meaning the call raises.
* Flash messages that the handlers emit are carried verbatim in the outcome
  constructors.
-/

namespace Sharayunet

/-- A row of the `photos` table (primary/canonical media fields of a post). -/
structure PhotoRow where
  id : Nat
  cloudinary_url : String
  cloudinary_public_id : String
  media_type : String
  caption : Option String
  deriving DecidableEq, Repr

/-- A row of the `post_images` table (one media item of a post). -/
structure PostImageRow where
  id : Nat
  photo_id : Nat
  cloudinary_url : String
  cloudinary_public_id : String
  media_type : String
  display_order : Nat
  deriving DecidableEq, Repr

/-- A row of the `comments` table. -/
structure CommentRow where
  id : Nat
  photo_id : Nat
  name : String
  body : String
  deriving DecidableEq, Repr

/-- The SQLite database state.  The two `...HaveMediaTypeCol` flags model
whether `ALTER TABLE ... ADD COLUMN media_type` has run for the respective
table; a row's `media_type` field is meaningful only once the flag is set. -/
structure DB where
  photosHaveMediaTypeCol : Bool
  postImagesHaveMediaTypeCol : Bool
  photos : List PhotoRow
  postImages : List PostImageRow
  comments : List CommentRow
  nextPhotoId : Nat
  nextImageId : Nat
  nextCommentId : Nat
  deriving DecidableEq, Repr

/-- An uploaded file as the handler sees it (`werkzeug` `FileStorage`):
`filename` and `content_type` may each be absent. -/
structure UFile where
  filename : Option String
  content_type : Option String
  deriving DecidableEq, Repr

/-! ## Media-kind detection (`detect_media_type`, app.py lines 85-92) -/

/-- Python `str.lower()`, restricted to ASCII case mapping. -/
def pyLower (s : String) : String :=
  String.mk (s.toList.map Char.toLower)

/-- Python `str.startswith(pre)`. -/
def pyStartsWith (s pre : String) : Bool :=
  pre.toList.isPrefixOf s.toList

/-- Python `str.strip()`: drop whitespace from both ends. -/
def pyStrip (s : String) : String :=
  String.mk
    (((s.toList.dropWhile Char.isWhitespace).reverse.dropWhile
        Char.isWhitespace).reverse)

/-- Index of the last occurrence of `c` in `cs`, or `-1` (Python `str.rfind`). -/
def lastIndexOf (cs : List Char) (c : Char) : Int :=
  match cs with
  | [] => -1
  | x :: xs =>
    let r := lastIndexOf xs c
    if r ≥ 0 then r + 1
    else if x = c then 0 else -1

/-- The extension component of `os.path.splitext` (posix): the suffix from the
last dot that lies after the last `/` and after at least one non-dot character
of the basename; otherwise empty. -/
def extOf (p : String) : String :=
  let cs := p.toList
  let sepIdx := lastIndexOf cs '/'
  let dotIdx := lastIndexOf cs '.'
  if sepIdx < dotIdx ∧
      (((cs.drop (sepIdx + 1).toNat).take (dotIdx - (sepIdx + 1)).toNat).any
        (fun ch => ch != '.')) = true then
    String.mk (cs.drop dotIdx.toNat)
  else ""

/-- The fixed set of video filename extensions (app.py line 90). -/
def videoExtSet : List String := [".mp4", ".mov", ".avi", ".mkv", ".webm", ".m4v"]

/-- `detect_media_type` (app.py lines 85-92): trust a declared `video/` content
type, else fall back to the filename extension, else classify as image. -/
def detect_media_type (content_type : Option String) (filename : Option String) :
    String :=
  let ct := pyLower (content_type.getD "")
  if pyStartsWith ct "video/" then "video"
  else
    let ext := pyLower (extOf (filename.getD ""))
    if ext ∈ videoExtSet then "video" else "image"

/-! ## Migrations (app.py lines 56-82) -/

/-- `migrate_media_type` (app.py lines 56-64): for each of the two tables, add
the `media_type` column if absent; the `DEFAULT 'image'` clause gives every
existing row the value `"image"`. -/
def migrate_media_type (db : DB) : DB :=
  let db1 :=
    if db.photosHaveMediaTypeCol then db
    else { db with photosHaveMediaTypeCol := true,
                   photos := db.photos.map (fun p => { p with media_type := "image" }) }
  if db1.postImagesHaveMediaTypeCol then db1
  else { db1 with postImagesHaveMediaTypeCol := true,
                  postImages := db1.postImages.map
                    (fun r => { r with media_type := "image" }) }

/-- The rows inserted by the backfill loop (app.py lines 77-81), one per orphan
photo, in order, with consecutive fresh rowids.  The INSERT names only
`photo_id`, `cloudinary_url`, `cloudinary_public_id` and `display_order`, so
`media_type` takes the column default `"image"`. -/
def backfillRows (nextId : Nat) : List PhotoRow → List PostImageRow
  | [] => []
  | p :: ps =>
    { id := nextId, photo_id := p.id, cloudinary_url := p.cloudinary_url,
      cloudinary_public_id := p.cloudinary_public_id, media_type := "image",
      display_order := 0 } :: backfillRows (nextId + 1) ps

/-- `migrate_post_images` (app.py lines 67-82): find the photos with no
`post_images` row (the LEFT JOIN with `pi.id IS NULL`), then insert one row
per orphan. -/
def migrate_post_images (db : DB) : DB :=
  let orphans := db.photos.filter
    (fun p => !(db.postImages.any (fun r => r.photo_id == p.id)))
  { db with postImages := db.postImages ++ backfillRows db.nextImageId orphans,
            nextImageId := db.nextImageId + orphans.length }

/-! ## Persistence accessors -/

/-- `SELECT * FROM photos WHERE id = ?` followed by `fetchone()`. -/
def getPost (db : DB) (photo_id : Nat) : Option PhotoRow :=
  db.photos.find? (fun p => p.id == photo_id)

/-- Number of comment rows attached to a post. -/
def commentCount (db : DB) (photo_id : Nat) : Nat :=
  (db.comments.filter (fun c => c.photo_id == photo_id)).length

/-! ## Route handlers -/

/-- The flash emitted by the `login_required` decorator (app.py line 103); the
same fixed text for every protected route, naming no resource. -/
def loginRequiredFlash : String := "Please log in to access that page."

/-- Outcome of a POST to `/upload`. -/
inductive UploadOutcome where
  | redirectLogin (flash : String)
  | redirectUpload (flash : String)
  | delegateError
  | redirectIndex (flash : String)
  deriving DecidableEq, Repr

/-- Outcome of a POST to `/photo/<id>/comment`. -/
inductive CommentOutcome where
  | flashRedirect (flash : String)
  | notFound
  | created
  deriving DecidableEq, Repr

/-- Outcome of a POST to `/delete/<id>`. -/
inductive DeleteOutcome where
  | redirectLogin (flash : String)
  | notFound
  | destroyError
  | redirectIndex (flash : String)
  deriving DecidableEq, Repr

/-- One `cloudinary.uploader.destroy` invocation as observed by the delegate. -/
structure DestroyCall where
  public_id : String
  resource_type : String
  deriving DecidableEq, Repr

/-- The filter `f and f.filename != ""` (app.py line 191): a `FileStorage` is
truthy exactly when its filename is a non-empty string. -/
def fileSelected (f : UFile) : Bool :=
  match f.filename with
  | some s => s != ""
  | none => false

/-- The upload loop (app.py lines 197-200): for each file, detect its kind and
call the delegate; the first failing delegate call raises, aborting the
request before any database statement runs. -/
def uploadLoop (delegate : Nat → Option (String × String)) :
    List UFile → Nat → Option (List (String × String × String))
  | [], _ => some []
  | f :: fs, i =>
    let mtype := detect_media_type f.content_type f.filename
    match delegate i with
    | none => none
    | some (url, publicId) =>
      match uploadLoop delegate fs (i + 1) with
      | none => none
      | some rest => some ((url, publicId, mtype) :: rest)

/-- The `(secure_url, public_id, media_type)` triples the upload loop collects
when every delegate call succeeds. -/
def uploadedOf (delegate : Nat → Option (String × String)) :
    List UFile → Nat → List (String × String × String)
  | [], _ => []
  | f :: fs, i =>
    let r := (delegate i).getD ("", "")
    (r.1, r.2, detect_media_type f.content_type f.filename) ::
      uploadedOf delegate fs (i + 1)

/-- The `post_images` rows inserted by the loop at app.py lines 208-212: one
row per uploaded triple, with sequential display order and fresh rowids. -/
def insertImages (photoId : Nat) (nextId : Nat) (ord : Nat) :
    List (String × String × String) → List PostImageRow
  | [] => []
  | (url, publicId, mtype) :: rest =>
    { id := nextId, photo_id := photoId, cloudinary_url := url,
      cloudinary_public_id := publicId, media_type := mtype,
      display_order := ord } :: insertImages photoId (nextId + 1) (ord + 1) rest

/-- The POST branch of `upload` (app.py lines 187-216), wrapped by
`login_required`.  `files0` is `request.files.getlist` before
filtering, `caption0` the raw caption field. -/
def upload_post (loggedIn : Bool) (files0 : List UFile) (caption0 : String)
    (delegate : Nat → Option (String × String)) (db : DB) :
    UploadOutcome × DB :=
  if loggedIn then
    let files := files0.filter fileSelected
    let caption := pyStrip caption0
    if files.isEmpty then
      (.redirectUpload "Please select at least one file to upload.", db)
    else
      match uploadLoop delegate files 0 with
      | none => (.delegateError, db)
      | some [] => (.delegateError, db)
        -- unreachable: `uploadLoop` preserves the length of a nonempty list
      | some ((firstUrl, firstPid, firstKind) :: rest) =>
        let uploaded := (firstUrl, firstPid, firstKind) :: rest
        let photoId := db.nextPhotoId
        let newPhoto : PhotoRow :=
          { id := photoId, cloudinary_url := firstUrl,
            cloudinary_public_id := firstPid, media_type := firstKind,
            caption := if caption == "" then none else some caption }
        (.redirectIndex "Uploaded successfully!",
         { db with photos := db.photos ++ [newPhoto],
                   postImages := db.postImages ++
                     insertImages photoId db.nextImageId 0 uploaded,
                   nextPhotoId := photoId + 1,
                   nextImageId := db.nextImageId + uploaded.length })
  else (.redirectLogin loginRequiredFlash, db)

/-- `add_comment` (app.py lines 146-162): trim both fields, reject if either is
empty, then check the post exists, then insert the comment row. -/
def add_comment (photo_id : Nat) (name0 body0 : String) (db : DB) :
    CommentOutcome × DB :=
  let name := pyStrip name0
  let body := pyStrip body0
  if name == "" || body == "" then
    (.flashRedirect "Both name and comment are required.", db)
  else if (db.photos.find? (fun p => p.id == photo_id)).isNone then
    (.notFound, db)
  else
    let newRow : CommentRow :=
      { id := db.nextCommentId, photo_id := photo_id, name := name,
        body := body }
    (.created,
     { db with comments := db.comments ++ [newRow],
               nextCommentId := db.nextCommentId + 1 })

/-- The `resource_type` argument passed to `destroy` (app.py lines 231, 234):
`"video"` when the persisted kind is `"video"`, else `"image"`. -/
def kindStr (media_type : String) : String :=
  if media_type == "video" then "video" else "image"

/-- The destroy loop: issues the calls in order; a failing call raises, so
later calls and the database delete do not happen.  Returns whether all calls
succeeded together with the calls actually issued. -/
def destroyLoop (destroyOk : Nat → Bool) :
    List DestroyCall → Nat → Bool × List DestroyCall
  | [], _ => (true, [])
  | c :: cs, i =>
    if destroyOk i then
      let r := destroyLoop destroyOk cs (i + 1)
      (r.1, c :: r.2)
    else (false, [c])

/-- `delete_photo` (app.py lines 219-239), wrapped by `login_required`.
The row deletion `DELETE FROM photos WHERE id = ?` removes the post's
`post_images` and `comments` rows as well.  Modelled from the spec: the
cascade lives in `schema.sql`, which is not part of the sources here; per the
spec (§3 Lifecycle, §4.1 `deletePost`) deleting a Post removes all its
PostMedia and Comment rows via schema-level foreign-key behaviour. -/
def delete_photo (loggedIn : Bool) (photo_id : Nat) (destroyOk : Nat → Bool)
    (db : DB) : DeleteOutcome × DB × List DestroyCall :=
  if loggedIn then
    match db.photos.find? (fun p => p.id == photo_id) with
    | none => (.notFound, db, [])
    | some p =>
      let imgs := db.postImages.filter (fun r => r.photo_id == photo_id)
      let targets : List DestroyCall :=
        if imgs.isEmpty then
          [{ public_id := p.cloudinary_public_id,
             resource_type := kindStr p.media_type }]
        else imgs.map (fun img =>
          { public_id := img.cloudinary_public_id,
            resource_type := kindStr img.media_type })
      let r := destroyLoop destroyOk targets 0
      if r.1 then
        (.redirectIndex "Deleted.",
         { db with photos := db.photos.filter (fun q => q.id != photo_id),
                   postImages := db.postImages.filter
                     (fun pi => pi.photo_id != photo_id),
                   comments := db.comments.filter
                     (fun c => c.photo_id != photo_id) },
         r.2)
      else (.destroyError, db, r.2)
  else (.redirectLogin loginRequiredFlash, db, [])

/-! ## Concrete states used by witnesses -/

/-- A small database with one post, one media row and no comments. -/
def sampleDB : DB :=
  { photosHaveMediaTypeCol := true
    postImagesHaveMediaTypeCol := true
    photos := [{ id := 1, cloudinary_url := "http://u/1",
                 cloudinary_public_id := "pid1", media_type := "image",
                 caption := none }]
    postImages := [{ id := 1, photo_id := 1, cloudinary_url := "http://u/1",
                     cloudinary_public_id := "pid1", media_type := "image",
                     display_order := 0 }]
    comments := []
    nextPhotoId := 2
    nextImageId := 2
    nextCommentId := 1 }

/-- A database whose single post owns two media rows (an image and a video)
and one comment. -/
def twoMediaDB : DB :=
  { photosHaveMediaTypeCol := true
    postImagesHaveMediaTypeCol := true
    photos := [{ id := 1, cloudinary_url := "http://u/1",
                 cloudinary_public_id := "pid1", media_type := "image",
                 caption := some "trip" }]
    postImages := [{ id := 1, photo_id := 1, cloudinary_url := "http://u/1",
                     cloudinary_public_id := "pid1", media_type := "image",
                     display_order := 0 },
                   { id := 2, photo_id := 1, cloudinary_url := "http://u/2",
                     cloudinary_public_id := "pid2", media_type := "video",
                     display_order := 1 }]
    comments := [{ id := 1, photo_id := 1, name := "ann", body := "nice" }]
    nextPhotoId := 2
    nextImageId := 3
    nextCommentId := 2 }

/-- A database whose single post is a legacy video post with no media rows. -/
def orphanVideoDB : DB :=
  { photosHaveMediaTypeCol := true
    postImagesHaveMediaTypeCol := true
    photos := [{ id := 7, cloudinary_url := "http://u/v",
                 cloudinary_public_id := "vidpid", media_type := "video",
                 caption := none }]
    postImages := []
    comments := [{ id := 1, photo_id := 7, name := "bob", body := "wow" }]
    nextPhotoId := 8
    nextImageId := 1
    nextCommentId := 2 }

/-- Two sample uploaded files: one image, one video. -/
def sampleFiles : List UFile :=
  [{ filename := some "a.jpg", content_type := some "image/jpeg" },
   { filename := some "b.mp4", content_type := some "video/mp4" }]

/-- A delegate whose upload calls always succeed. -/
def sampleDelegate : Nat → Option (String × String) :=
  fun i => some ("url", if i == 0 then "pa" else "pb")

/-! ## Helper lemmas -/

/-- If some delegate call within range fails, the upload loop raises. -/
theorem uploadLoop_eq_none (delegate : Nat → Option (String × String)) :
    ∀ (fs : List UFile) (start j : Nat), j < fs.length →
      delegate (start + j) = none → uploadLoop delegate fs start = none := by
  intro fs
  induction fs with
  | nil => intro start j hj _; simp at hj
  | cons f fs ih =>
    intro start j hj hnone
    cases j with
    | zero =>
      rw [Nat.add_zero] at hnone
      simp [uploadLoop, hnone]
    | succ j =>
      cases hd : delegate start with
      | none => simp [uploadLoop, hd]
      | some v =>
        obtain ⟨u, p⟩ := v
        have hrec : uploadLoop delegate fs (start + 1) = none := by
          apply ih (start + 1) j
          · simpa using Nat.lt_of_succ_lt_succ hj
          · rw [show start + 1 + j = start + (j + 1) by omega]; exact hnone
        simp [uploadLoop, hd, hrec]

/-- The upload loop collects one triple per file. -/
theorem uploadedOf_length (delegate : Nat → Option (String × String)) :
    ∀ (fs : List UFile) (i : Nat), (uploadedOf delegate fs i).length = fs.length := by
  intro fs
  induction fs with
  | nil => intro i; rfl
  | cons f fs ih => intro i; simp [uploadedOf, ih]

/-- One `post_images` row is built per uploaded triple. -/
theorem insertImages_length :
    ∀ (l : List (String × String × String)) (pid nid ord : Nat),
      (insertImages pid nid ord l).length = l.length := by
  intro l
  induction l with
  | nil => intro pid nid ord; rfl
  | cons a rest ih =>
    obtain ⟨u, p, m⟩ := a
    intro pid nid ord
    simp [insertImages, ih]

/-- When every delegate call in range succeeds, the upload loop returns the
collected triples. -/
theorem uploadLoop_eq_some (delegate : Nat → Option (String × String)) :
    ∀ (fs : List UFile) (i : Nat),
      (∀ j, j < fs.length → (delegate (i + j)).isSome = true) →
      uploadLoop delegate fs i = some (uploadedOf delegate fs i) := by
  intro fs
  induction fs with
  | nil => intro i _; rfl
  | cons f fs ih =>
    intro i h
    have h0 : (delegate i).isSome = true := by simpa using h 0 (by simp)
    obtain ⟨⟨u, p⟩, hd⟩ := Option.isSome_iff_exists.mp h0
    have hrec := ih (i + 1) (fun j hj => by
      have := h (j + 1) (by simpa using Nat.succ_lt_succ hj)
      rwa [show i + (j + 1) = i + 1 + j by omega] at this)
    simp [uploadLoop, uploadedOf, hd, hrec]

/-- Shape of the i-th inserted media row. -/
theorem insertImages_getElem :
    ∀ (l : List (String × String × String)) (pid nid ord i : Nat)
      (u p m : String), l[i]? = some (u, p, m) →
      (insertImages pid nid ord l)[i]? =
        some { id := nid + i, photo_id := pid, cloudinary_url := u,
               cloudinary_public_id := p, media_type := m,
               display_order := ord + i } := by
  intro l
  induction l with
  | nil => intro pid nid ord i u p m hi; simp at hi
  | cons a rest ih =>
    obtain ⟨u', p', m'⟩ := a
    intro pid nid ord i u p m hi
    cases i with
    | zero =>
      simp only [List.getElem?_cons_zero, Option.some_inj, Prod.mk.injEq] at hi
      obtain ⟨h1, h2, h3⟩ := hi
      subst h1; subst h2; subst h3
      simp [insertImages]
    | succ i =>
      simp only [List.getElem?_cons_succ] at hi
      rw [show nid + (i + 1) = nid + 1 + i by omega,
          show ord + (i + 1) = ord + 1 + i by omega]
      simpa [insertImages] using ih pid (nid + 1) (ord + 1) i u p m hi

/-- Shape of the i-th collected triple: the i-th file's detected kind together
with the i-th delegate result. -/
theorem uploadedOf_getElem (delegate : Nat → Option (String × String)) :
    ∀ (fs : List UFile) (i0 i : Nat), i < fs.length →
      (∀ j, j < fs.length → (delegate (i0 + j)).isSome = true) →
      ∃ f u p, fs[i]? = some f ∧ delegate (i0 + i) = some (u, p) ∧
        (uploadedOf delegate fs i0)[i]? =
          some (u, p, detect_media_type f.content_type f.filename) := by
  intro fs
  induction fs with
  | nil => intro i0 i hi _; simp at hi
  | cons f fs ih =>
    intro i0 i hi hok
    cases i with
    | zero =>
      have h0 : (delegate i0).isSome = true := by simpa using hok 0 (by simp)
      obtain ⟨⟨u, p⟩, hd⟩ := Option.isSome_iff_exists.mp h0
      exact ⟨f, u, p, by simp, by simpa using hd, by simp [uploadedOf, hd]⟩
    | succ i =>
      have hok' : ∀ j, j < fs.length → (delegate (i0 + 1 + j)).isSome = true := by
        intro j hj
        have := hok (j + 1) (by simpa using Nat.succ_lt_succ hj)
        rwa [show i0 + (j + 1) = i0 + 1 + j by omega] at this
      obtain ⟨g, u, p, hg, hd, hu⟩ :=
        ih (i0 + 1) i (by simpa using Nat.lt_of_succ_lt_succ hi) hok'
      refine ⟨g, u, p, by simpa using hg, ?_, by simpa [uploadedOf] using hu⟩
      rwa [show i0 + (i + 1) = i0 + 1 + i by omega]

/-- When every destroy call in range succeeds, the loop issues exactly the
given calls and reports success. -/
theorem destroyLoop_all_ok (destroyOk : Nat → Bool) :
    ∀ (cs : List DestroyCall) (start : Nat),
      (∀ j, j < cs.length → destroyOk (start + j) = true) →
      destroyLoop destroyOk cs start = (true, cs) := by
  intro cs
  induction cs with
  | nil => intro start _; rfl
  | cons c cs ih =>
    intro start h
    have h0 : destroyOk start = true := by simpa using h 0 (by simp)
    have hrec := ih (start + 1) (fun j hj => by
      have := h (j + 1) (by simpa using Nat.succ_lt_succ hj)
      rwa [show start + (j + 1) = start + 1 + j by omega] at this)
    simp [destroyLoop, h0, hrec]

/-- Backfilled rows for photos whose id differs from `pid` never match `pid`. -/
theorem backfillRows_filter_nil (pid : Nat) :
    ∀ (ps : List PhotoRow) (n : Nat), (∀ q ∈ ps, q.id ≠ pid) →
      (backfillRows n ps).filter (fun r => r.photo_id == pid) = [] := by
  intro ps
  induction ps with
  | nil => intro n _; rfl
  | cons q qs ih =>
    intro n h
    have hq : (q.id == pid) = false := by
      simpa using h q (List.mem_cons_self q qs)
    simp [backfillRows, List.filter_cons, hq,
          ih (n + 1) (fun x hx => h x (List.mem_cons_of_mem q hx))]

/-- With photo ids unique, the backfill produces exactly one row for a photo
in the orphan list: that photo's URL and external id, display order 0, and the
column-default media kind `"image"`. -/
theorem backfillRows_filter_single :
    ∀ (ps : List PhotoRow) (n : Nat) (p : PhotoRow),
      (ps.map PhotoRow.id).Nodup → p ∈ ps →
      ∃ m, (backfillRows n ps).filter (fun r => r.photo_id == p.id) =
        [{ id := m, photo_id := p.id, cloudinary_url := p.cloudinary_url,
           cloudinary_public_id := p.cloudinary_public_id,
           media_type := "image", display_order := 0 }] := by
  intro ps
  induction ps with
  | nil => intro n p _ hp; simp at hp
  | cons q qs ih =>
    intro n p hnd hp
    rw [List.map_cons, List.nodup_cons] at hnd
    rcases List.mem_cons.mp hp with heq | hmem
    · subst heq
      have htail : (backfillRows (n + 1) qs).filter
          (fun r => r.photo_id == p.id) = [] := by
        apply backfillRows_filter_nil p.id qs (n + 1)
        intro x hx hxe
        exact hnd.1 (hxe ▸ List.mem_map_of_mem PhotoRow.id hx)
      refine ⟨n, ?_⟩
      simp [backfillRows, List.filter_cons, htail]
    · have hne : (q.id == p.id) = false := by
        have : p.id ∈ qs.map PhotoRow.id := List.mem_map_of_mem PhotoRow.id hmem
        simp only [beq_eq_false_iff_ne, ne_eq]
        intro he
        exact hnd.1 (he ▸ this)
      obtain ⟨m, hm⟩ := ih (n + 1) p hnd.2 hmem
      exact ⟨m, by simp [backfillRows, List.filter_cons, hne, hm]⟩

/-- A photo in the backfilled list is matched by some backfilled row. -/
theorem backfillRows_any (p : PhotoRow) :
    ∀ (ps : List PhotoRow) (n : Nat), p ∈ ps →
      (backfillRows n ps).any (fun r => r.photo_id == p.id) = true := by
  intro ps
  induction ps with
  | nil => intro n hp; simp at hp
  | cons q qs ih =>
    intro n hp
    rcases List.mem_cons.mp hp with heq | hmem
    · subst heq; simp [backfillRows]
    · simp [backfillRows, List.any_cons, ih (n + 1) hmem]

/-- The column-addition step sets both presence flags. -/
theorem migrate_media_type_flags (db : DB) :
    (migrate_media_type db).photosHaveMediaTypeCol = true ∧
    (migrate_media_type db).postImagesHaveMediaTypeCol = true := by
  rw [migrate_media_type]
  by_cases h1 : db.photosHaveMediaTypeCol <;>
    by_cases h2 : db.postImagesHaveMediaTypeCol <;>
      simp [h1, h2]

/-- The column-addition step is a no-op once both columns are present. -/
theorem migrate_media_type_noop (db : DB)
    (h1 : db.photosHaveMediaTypeCol = true)
    (h2 : db.postImagesHaveMediaTypeCol = true) :
    migrate_media_type db = db := by
  rw [migrate_media_type]
  simp [h1, h2]

/-- The backfill step touches neither the schema flags nor the photo list. -/
theorem migrate_post_images_preserves (db : DB) :
    (migrate_post_images db).photosHaveMediaTypeCol =
      db.photosHaveMediaTypeCol ∧
    (migrate_post_images db).postImagesHaveMediaTypeCol =
      db.postImagesHaveMediaTypeCol ∧
    (migrate_post_images db).photos = db.photos :=
  ⟨rfl, rfl, rfl⟩

/-- The backfill step is a no-op on a state with no orphan photos. -/
theorem migrate_post_images_noop (db : DB)
    (h : ∀ p ∈ db.photos,
      db.postImages.any (fun r => r.photo_id == p.id) = true) :
    migrate_post_images db = db := by
  have horph : db.photos.filter
      (fun p => !(db.postImages.any (fun r => r.photo_id == p.id))) = [] :=
    List.filter_eq_nil_iff.mpr (fun a ha => by simp [h a ha])
  obtain ⟨c1, c2, ph, pi, cm, n1, n2, n3⟩ := db
  simp only [migrate_post_images] at *
  rw [horph]
  simp [backfillRows]

/-- After the backfill, every photo has at least one media row. -/
theorem migrate_post_images_covers (db : DB) :
    ∀ p ∈ db.photos,
      (migrate_post_images db).postImages.any
        (fun r => r.photo_id == p.id) = true := by
  intro p hp
  rw [migrate_post_images]
  simp only [List.any_append, Bool.or_eq_true]
  by_cases hany : db.postImages.any (fun r => r.photo_id == p.id) = true
  · exact Or.inl hany
  · refine Or.inr (backfillRows_any p _ db.nextImageId ?_)
    exact List.mem_filter.mpr ⟨hp, by simp [hany]⟩

/-! ## Claims -/

/-- C1: a logged-in upload with at least one selected file and all delegate
calls succeeding inserts exactly one post row — carrying the first file's URL,
external id and detected kind as the primary fields — and one media row per
file, with display orders 0..N-1 in submission order, each carrying its own
file's detected kind. -/
theorem upload_inserts_one_post_and_media
    (files0 : List UFile) (caption0 : String)
    (delegate : Nat → Option (String × String)) (db : DB)
    (hne : files0.filter fileSelected ≠ [])
    (hok : ∀ i, i < (files0.filter fileSelected).length →
      (delegate i).isSome = true) :
    ∃ newPost newRows,
      upload_post true files0 caption0 delegate db =
        (UploadOutcome.redirectIndex "Uploaded successfully!",
         { db with photos := db.photos ++ [newPost],
                   postImages := db.postImages ++ newRows,
                   nextPhotoId := db.nextPhotoId + 1,
                   nextImageId := db.nextImageId +
                     (files0.filter fileSelected).length }) ∧
      (∃ f0 u0 p0, (files0.filter fileSelected)[0]? = some f0 ∧
        delegate 0 = some (u0, p0) ∧
        newPost = { id := db.nextPhotoId, cloudinary_url := u0,
                    cloudinary_public_id := p0,
                    media_type := detect_media_type f0.content_type f0.filename,
                    caption := if pyStrip caption0 == "" then none
                               else some (pyStrip caption0) }) ∧
      newRows.length = (files0.filter fileSelected).length ∧
      (∀ i, i < (files0.filter fileSelected).length → ∃ f u p,
        (files0.filter fileSelected)[i]? = some f ∧ delegate i = some (u, p) ∧
        newRows[i]? = some { id := db.nextImageId + i,
                             photo_id := db.nextPhotoId, cloudinary_url := u,
                             cloudinary_public_id := p,
                             media_type :=
                               detect_media_type f.content_type f.filename,
                             display_order := i }) := by
  obtain ⟨f0, rest, hcons⟩ : ∃ f0 rest, files0.filter fileSelected = f0 :: rest := by
    cases h : files0.filter fileSelected with
    | nil => exact absurd h hne
    | cons a l => exact ⟨a, l, rfl⟩
  have hok0 : ∀ j, j < (files0.filter fileSelected).length →
      (delegate (0 + j)).isSome = true := by
    intro j hj; simpa using hok j hj
  have hloop := uploadLoop_eq_some delegate (files0.filter fileSelected) 0 hok0
  have h0 : (delegate 0).isSome = true := by
    apply hok 0; rw [hcons]; simp
  obtain ⟨⟨u0, p0⟩, hd0⟩ := Option.isSome_iff_exists.mp h0
  have hup : uploadedOf delegate (files0.filter fileSelected) 0 =
      (u0, p0, detect_media_type f0.content_type f0.filename) ::
        uploadedOf delegate rest 1 := by
    rw [hcons]; simp [uploadedOf, hd0]
  refine ⟨{ id := db.nextPhotoId, cloudinary_url := u0,
            cloudinary_public_id := p0,
            media_type := detect_media_type f0.content_type f0.filename,
            caption := if pyStrip caption0 == "" then none
                       else some (pyStrip caption0) },
          insertImages db.nextPhotoId db.nextImageId 0
            (uploadedOf delegate (files0.filter fileSelected) 0),
          ?_, ⟨f0, u0, p0, by rw [hcons]; simp, hd0, rfl⟩, ?_, ?_⟩
  · rw [upload_post]
    simp only [if_pos]
    rw [hloop, hup]
    have hne' : ((files0.filter fileSelected).isEmpty) = false := by
      rw [hcons]; rfl
    simp only [hne', Bool.false_eq_true, if_false]
    rw [← hup]
    have hlen : (uploadedOf delegate (files0.filter fileSelected) 0).length =
        (files0.filter fileSelected).length :=
      uploadedOf_length delegate _ 0
    simp [hlen]
  · rw [insertImages_length, uploadedOf_length]
  · intro i hi
    obtain ⟨f, u, p, hf, hd, hu⟩ :=
      uploadedOf_getElem delegate (files0.filter fileSelected) 0 i hi hok0
    refine ⟨f, u, p, hf, by simpa using hd, ?_⟩
    have := insertImages_getElem
      (uploadedOf delegate (files0.filter fileSelected) 0)
      db.nextPhotoId db.nextImageId 0 i u p
      (detect_media_type f.content_type f.filename) hu
    simpa using this

/-- Witness for C1: two concrete files (one image, one video) on the sample
database with an always-succeeding delegate. -/
theorem upload_inserts_one_post_and_media_witness :
    ∃ newPost newRows,
      upload_post true sampleFiles " trip " sampleDelegate sampleDB =
        (UploadOutcome.redirectIndex "Uploaded successfully!",
         { sampleDB with photos := sampleDB.photos ++ [newPost],
                         postImages := sampleDB.postImages ++ newRows,
                         nextPhotoId := sampleDB.nextPhotoId + 1,
                         nextImageId := sampleDB.nextImageId +
                           (sampleFiles.filter fileSelected).length }) ∧
      (∃ f0 u0 p0, (sampleFiles.filter fileSelected)[0]? = some f0 ∧
        sampleDelegate 0 = some (u0, p0) ∧
        newPost = { id := sampleDB.nextPhotoId, cloudinary_url := u0,
                    cloudinary_public_id := p0,
                    media_type := detect_media_type f0.content_type f0.filename,
                    caption := if pyStrip " trip " == "" then none
                               else some (pyStrip " trip ") }) ∧
      newRows.length = (sampleFiles.filter fileSelected).length ∧
      (∀ i, i < (sampleFiles.filter fileSelected).length → ∃ f u p,
        (sampleFiles.filter fileSelected)[i]? = some f ∧
        sampleDelegate i = some (u, p) ∧
        newRows[i]? = some { id := sampleDB.nextImageId + i,
                             photo_id := sampleDB.nextPhotoId,
                             cloudinary_url := u, cloudinary_public_id := p,
                             media_type :=
                               detect_media_type f.content_type f.filename,
                             display_order := i }) :=
  upload_inserts_one_post_and_media sampleFiles " trip " sampleDelegate
    sampleDB (by decide) (fun i _ => rfl)

/-- C5: media-kind detection returns `"video"` when the declared content type,
lowercased, starts with `"video/"`; otherwise `"video"` when the filename's
extension, lowercased, lies in the fixed six-element extension set; otherwise
`"image"`. -/
theorem detect_media_type_policy (ct fn : Option String) :
    (pyStartsWith (pyLower (ct.getD "")) "video/" = true →
      detect_media_type ct fn = "video") ∧
    (pyStartsWith (pyLower (ct.getD "")) "video/" = false →
      pyLower (extOf (fn.getD "")) ∈
        [".mp4", ".mov", ".avi", ".mkv", ".webm", ".m4v"] →
      detect_media_type ct fn = "video") ∧
    (pyStartsWith (pyLower (ct.getD "")) "video/" = false →
      pyLower (extOf (fn.getD "")) ∉
        [".mp4", ".mov", ".avi", ".mkv", ".webm", ".m4v"] →
      detect_media_type ct fn = "image") := by
  refine ⟨fun h => ?_, fun h1 h2 => ?_, fun h1 h2 => ?_⟩ <;>
    simp_all [detect_media_type, videoExtSet]

/-- Witness for C5: one concrete input per branch of the fallback chain. -/
theorem detect_media_type_policy_witness :
    detect_media_type (some "VIDEO/mp4") (some "a.txt") = "video" ∧
    detect_media_type (some "text/plain") (some "Clip.MOV") = "video" ∧
    detect_media_type none (some "pic.jpeg") = "image" :=
  ⟨(detect_media_type_policy (some "VIDEO/mp4") (some "a.txt")).1 (by decide),
   (detect_media_type_policy (some "text/plain") (some "Clip.MOV")).2.1
     (by decide) (by decide),
   (detect_media_type_policy none (some "pic.jpeg")).2.2
     (by decide) (by decide)⟩

/-- C6: a comment whose name or body is empty after trimming changes no
database state — in particular the target post's comment count — and yields
the validation flash redirect. -/
theorem empty_comment_fields_leave_db_unchanged
    (photo_id : Nat) (name0 body0 : String) (db : DB)
    (h : pyStrip name0 = "" ∨ pyStrip body0 = "") :
    add_comment photo_id name0 body0 db =
      (CommentOutcome.flashRedirect "Both name and comment are required.", db) ∧
    commentCount (add_comment photo_id name0 body0 db).2 photo_id =
      commentCount db photo_id := by
  have hmain : add_comment photo_id name0 body0 db =
      (CommentOutcome.flashRedirect "Both name and comment are required.", db) := by
    rcases h with h | h <;> simp [add_comment, h]
  exact ⟨hmain, by rw [hmain]⟩

/-- Witness for C6: an empty name on a concrete database. -/
theorem empty_comment_fields_leave_db_unchanged_witness :
    add_comment 1 "   " "hello" sampleDB =
      (CommentOutcome.flashRedirect "Both name and comment are required.",
       sampleDB) ∧
    commentCount (add_comment 1 "   " "hello" sampleDB).2 1 =
      commentCount sampleDB 1 :=
  empty_comment_fields_leave_db_unchanged 1 "   " "hello" sampleDB
    (Or.inl (by decide))

/-- C9: the emptiness validation runs before the post-existence check — an
empty trimmed field yields the validation redirect even for an absent post id,
and the not-found outcome occurs only when both fields are non-empty after
trimming and the post is absent, in which case the database is unchanged. -/
theorem comment_validation_precedes_existence_check
    (photo_id : Nat) (name0 body0 : String) (db : DB) :
    ((pyStrip name0 = "" ∨ pyStrip body0 = "") →
      add_comment photo_id name0 body0 db =
        (CommentOutcome.flashRedirect "Both name and comment are required.",
         db)) ∧
    ((add_comment photo_id name0 body0 db).1 = CommentOutcome.notFound →
      pyStrip name0 ≠ "" ∧ pyStrip body0 ≠ "" ∧ getPost db photo_id = none ∧
      (add_comment photo_id name0 body0 db).2 = db) := by
  constructor
  · intro h; rcases h with h | h <;> simp [add_comment, h]
  · intro h
    by_cases h1 : (pyStrip name0 == "" || pyStrip body0 == "") = true
    · exfalso; simp [add_comment, h1] at h
    · by_cases h2 : (db.photos.find? (fun p => p.id == photo_id)).isNone = true
      · simp only [Bool.or_eq_true, beq_iff_eq, not_or] at h1
        refine ⟨h1.1, h1.2, ?_, ?_⟩
        · simpa [getPost, Option.isNone_iff_eq_none] using h2
        · simp [add_comment, h1.1, h1.2, h2]
      · exfalso; simp [add_comment, h1, h2] at h

/-- Witness for C9: validation fires on an absent post id; not-found implies
both fields non-empty, the post absent, and the database unchanged. -/
theorem comment_validation_precedes_existence_check_witness :
    add_comment 99 "" "hello" sampleDB =
      (CommentOutcome.flashRedirect "Both name and comment are required.",
       sampleDB) ∧
    (pyStrip "ann" ≠ "" ∧ pyStrip "hi" ≠ "" ∧ getPost sampleDB 99 = none ∧
      (add_comment 99 "ann" "hi" sampleDB).2 = sampleDB) :=
  ⟨(comment_validation_precedes_existence_check 99 "" "hello" sampleDB).1
     (Or.inl (by decide)),
   (comment_validation_precedes_existence_check 99 "ann" "hi" sampleDB).2
     (by decide)⟩

/-- C7: with the session's `logged_in` flag unset, both admin-only handlers
return the login redirect carrying the fixed flash text — independent of the
attempted resource and of the delegate — with the database unchanged and no
delegate call issued. -/
theorem admin_gate_redirects_without_side_effects
    (files0 : List UFile) (caption0 : String)
    (delegate : Nat → Option (String × String)) (photo_id : Nat)
    (destroyOk : Nat → Bool) (db : DB) :
    upload_post false files0 caption0 delegate db =
      (UploadOutcome.redirectLogin loginRequiredFlash, db) ∧
    delete_photo false photo_id destroyOk db =
      (DeleteOutcome.redirectLogin loginRequiredFlash, db, []) := by
  constructor <;> rfl

/-- C3: if any delegate upload call within the selected files fails, the
handler leaves the database unchanged: no post row and no media row is
inserted. -/
theorem failed_upload_leaves_db_unchanged
    (loggedIn : Bool) (files0 : List UFile) (caption0 : String)
    (delegate : Nat → Option (String × String)) (db : DB)
    (h : ∃ i, i < (files0.filter fileSelected).length ∧ delegate i = none) :
    (upload_post loggedIn files0 caption0 delegate db).2 = db := by
  cases loggedIn with
  | false => rfl
  | true =>
    obtain ⟨i, hi, hnone⟩ := h
    have hloop : uploadLoop delegate (files0.filter fileSelected) 0 = none := by
      apply uploadLoop_eq_none delegate (files0.filter fileSelected) 0 i hi
      simpa using hnone
    by_cases he : (files0.filter fileSelected).isEmpty = true
    · simp [upload_post, he]
    · simp [upload_post, he, hloop]

/-- Witness for C3: a delegate that always fails leaves the sample database
unchanged. -/
theorem failed_upload_leaves_db_unchanged_witness :
    (upload_post true [{ filename := some "a.jpg",
                         content_type := some "image/jpeg" }] "cap"
       (fun _ => none) sampleDB).2 = sampleDB :=
  failed_upload_leaves_db_unchanged true
    [{ filename := some "a.jpg", content_type := some "image/jpeg" }] "cap"
    (fun _ => none) sampleDB ⟨0, by decide, rfl⟩

/-- C2: deleting an existing post whose media rows are nonempty destroys each
media item via the delegate using the kind persisted with that item, removes
the post row together with all its media and comment rows, and a subsequent
`getPost` signals not-found. -/
theorem delete_destroys_media_and_removes_rows
    (photo_id : Nat) (destroyOk : Nat → Bool) (db : DB) (p : PhotoRow)
    (hp : getPost db photo_id = some p)
    (himgs : db.postImages.filter (fun r => r.photo_id == photo_id) ≠ [])
    (hok : ∀ j,
      j < (db.postImages.filter (fun r => r.photo_id == photo_id)).length →
      destroyOk j = true) :
    delete_photo true photo_id destroyOk db =
      (DeleteOutcome.redirectIndex "Deleted.",
       { db with photos := db.photos.filter (fun q => q.id != photo_id),
                 postImages := db.postImages.filter
                   (fun r => r.photo_id != photo_id),
                 comments := db.comments.filter
                   (fun c => c.photo_id != photo_id) },
       (db.postImages.filter (fun r => r.photo_id == photo_id)).map
         (fun img => { public_id := img.cloudinary_public_id,
                       resource_type := kindStr img.media_type })) ∧
    (∀ img ∈ db.postImages.filter (fun r => r.photo_id == photo_id),
      ({ public_id := img.cloudinary_public_id,
         resource_type := kindStr img.media_type } : DestroyCall) ∈
        (delete_photo true photo_id destroyOk db).2.2) ∧
    getPost (delete_photo true photo_id destroyOk db).2.1 photo_id = none ∧
    (delete_photo true photo_id destroyOk db).2.1.postImages.filter
      (fun r => r.photo_id == photo_id) = [] ∧
    (delete_photo true photo_id destroyOk db).2.1.comments.filter
      (fun c => c.photo_id == photo_id) = [] := by
  rw [getPost] at hp
  have hemp : (db.postImages.filter
      (fun r => r.photo_id == photo_id)).isEmpty = false := by
    cases h : db.postImages.filter (fun r => r.photo_id == photo_id) with
    | nil => exact absurd h himgs
    | cons a l => rfl
  have hloop := destroyLoop_all_ok destroyOk
    ((db.postImages.filter (fun r => r.photo_id == photo_id)).map
      (fun img => ({ public_id := img.cloudinary_public_id,
                     resource_type := kindStr img.media_type } : DestroyCall)))
    0 (by intro j hj; apply hok; simpa using hj)
  have hmain : delete_photo true photo_id destroyOk db =
      (DeleteOutcome.redirectIndex "Deleted.",
       { db with photos := db.photos.filter (fun q => q.id != photo_id),
                 postImages := db.postImages.filter
                   (fun r => r.photo_id != photo_id),
                 comments := db.comments.filter
                   (fun c => c.photo_id != photo_id) },
       (db.postImages.filter (fun r => r.photo_id == photo_id)).map
         (fun img => { public_id := img.cloudinary_public_id,
                       resource_type := kindStr img.media_type })) := by
    rw [delete_photo]
    simp only [if_pos, hp, hemp, Bool.false_eq_true, if_false, hloop]
  refine ⟨hmain, ?_, ?_, ?_, ?_⟩
  · intro img himg
    rw [hmain]
    exact List.mem_map_of_mem _ himg
  · rw [hmain, getPost]
    apply List.find?_eq_none.mpr
    intro q hq
    have := (List.mem_filter.mp hq).2
    simpa using this
  · rw [hmain]
    apply List.filter_eq_nil_iff.mpr
    intro r hr
    have := (List.mem_filter.mp hr).2
    simpa using this
  · rw [hmain]
    apply List.filter_eq_nil_iff.mpr
    intro c hc
    have := (List.mem_filter.mp hc).2
    simpa using this

/-- Witness for C2: deleting the two-media post of `twoMediaDB`. -/
theorem delete_destroys_media_and_removes_rows_witness :
    delete_photo true 1 (fun _ => true) twoMediaDB =
      (DeleteOutcome.redirectIndex "Deleted.",
       { twoMediaDB with
           photos := twoMediaDB.photos.filter (fun q => q.id != 1),
           postImages := twoMediaDB.postImages.filter
             (fun r => r.photo_id != 1),
           comments := twoMediaDB.comments.filter
             (fun c => c.photo_id != 1) },
       (twoMediaDB.postImages.filter (fun r => r.photo_id == 1)).map
         (fun img => { public_id := img.cloudinary_public_id,
                       resource_type := kindStr img.media_type })) ∧
    (∀ img ∈ twoMediaDB.postImages.filter (fun r => r.photo_id == 1),
      ({ public_id := img.cloudinary_public_id,
         resource_type := kindStr img.media_type } : DestroyCall) ∈
        (delete_photo true 1 (fun _ => true) twoMediaDB).2.2) ∧
    getPost (delete_photo true 1 (fun _ => true) twoMediaDB).2.1 1 = none ∧
    (delete_photo true 1 (fun _ => true) twoMediaDB).2.1.postImages.filter
      (fun r => r.photo_id == 1) = [] ∧
    (delete_photo true 1 (fun _ => true) twoMediaDB).2.1.comments.filter
      (fun c => c.photo_id == 1) = [] :=
  delete_destroys_media_and_removes_rows 1 (fun _ => true) twoMediaDB
    { id := 1, cloudinary_url := "http://u/1", cloudinary_public_id := "pid1",
      media_type := "image", caption := some "trip" }
    (by decide) (by decide) (fun j _ => rfl)

/-- C10: deleting an existing post that has no media rows issues exactly one
delegate destroy call — for the post's own primary external id with its
persisted kind — and removes the post row. -/
theorem delete_orphan_post_fallback_destroy
    (photo_id : Nat) (destroyOk : Nat → Bool) (db : DB) (p : PhotoRow)
    (hp : getPost db photo_id = some p)
    (himgs : db.postImages.filter (fun r => r.photo_id == photo_id) = [])
    (hok : destroyOk 0 = true) :
    delete_photo true photo_id destroyOk db =
      (DeleteOutcome.redirectIndex "Deleted.",
       { db with photos := db.photos.filter (fun q => q.id != photo_id),
                 postImages := db.postImages.filter
                   (fun r => r.photo_id != photo_id),
                 comments := db.comments.filter
                   (fun c => c.photo_id != photo_id) },
       [{ public_id := p.cloudinary_public_id,
          resource_type := kindStr p.media_type }]) ∧
    (delete_photo true photo_id destroyOk db).2.2.length = 1 := by
  rw [getPost] at hp
  have hmain : delete_photo true photo_id destroyOk db =
      (DeleteOutcome.redirectIndex "Deleted.",
       { db with photos := db.photos.filter (fun q => q.id != photo_id),
                 postImages := db.postImages.filter
                   (fun r => r.photo_id != photo_id),
                 comments := db.comments.filter
                   (fun c => c.photo_id != photo_id) },
       [{ public_id := p.cloudinary_public_id,
          resource_type := kindStr p.media_type }]) := by
    rw [delete_photo]
    simp only [if_pos, hp, himgs, List.isEmpty_nil, if_true]
    simp [destroyLoop, hok]
  exact ⟨hmain, by rw [hmain]; rfl⟩

/-- Witness for C10: deleting the orphan legacy video post of
`orphanVideoDB`. -/
theorem delete_orphan_post_fallback_destroy_witness :
    delete_photo true 7 (fun _ => true) orphanVideoDB =
      (DeleteOutcome.redirectIndex "Deleted.",
       { orphanVideoDB with
           photos := orphanVideoDB.photos.filter (fun q => q.id != 7),
           postImages := orphanVideoDB.postImages.filter
             (fun r => r.photo_id != 7),
           comments := orphanVideoDB.comments.filter
             (fun c => c.photo_id != 7) },
       [{ public_id := "vidpid", resource_type := kindStr "video" }]) ∧
    (delete_photo true 7 (fun _ => true) orphanVideoDB).2.2.length = 1 :=
  delete_orphan_post_fallback_destroy 7 (fun _ => true) orphanVideoDB
    { id := 7, cloudinary_url := "http://u/v", cloudinary_public_id := "vidpid",
      media_type := "video", caption := none }
    (by decide) (by decide) rfl

/-- C4 counterexample: on a legacy video post with no media rows, the backfill
synthesizes a row whose media kind is the column default `"image"`, not the
post's own media kind `"video"` — the INSERT at app.py line 79 does not write
the `media_type` column. -/
theorem backfill_media_kind_counterexample :
    (migrate_post_images orphanVideoDB).postImages =
      [{ id := 1, photo_id := 7, cloudinary_url := "http://u/v",
         cloudinary_public_id := "vidpid", media_type := "image",
         display_order := 0 }] ∧
    orphanVideoDB.photos.map (fun p => p.media_type) = ["video"] ∧
    (migrate_post_images orphanVideoDB).postImages.map
      (fun r => r.media_type) = ["image"] ∧
    ("image" : String) ≠ "video" := by decide

/-- C4 as amended: for every post lacking media rows (with photo ids unique),
the backfill synthesizes exactly one PostMedia row carrying the post's primary
URL and external id with display order 0, whose media kind is the column
default `"image"` regardless of the post's own media kind. -/
theorem backfill_synthesizes_default_image_row
    (db : DB) (p : PhotoRow)
    (hnd : (db.photos.map PhotoRow.id).Nodup)
    (hmem : p ∈ db.photos)
    (horphan : db.postImages.filter (fun r => r.photo_id == p.id) = []) :
    ∃ newId, (migrate_post_images db).postImages.filter
        (fun r => r.photo_id == p.id) =
      [{ id := newId, photo_id := p.id, cloudinary_url := p.cloudinary_url,
         cloudinary_public_id := p.cloudinary_public_id,
         media_type := "image", display_order := 0 }] := by
  have hany : db.postImages.any (fun r => r.photo_id == p.id) = false := by
    rw [List.any_eq_false]
    exact List.filter_eq_nil_iff.mp horphan
  have hporph : p ∈ db.photos.filter
      (fun q => !(db.postImages.any (fun r => r.photo_id == q.id))) :=
    List.mem_filter.mpr ⟨hmem, by simp [hany]⟩
  have hndo : ((db.photos.filter
      (fun q => !(db.postImages.any
        (fun r => r.photo_id == q.id)))).map PhotoRow.id).Nodup :=
    hnd.sublist ((List.filter_sublist _).map PhotoRow.id)
  obtain ⟨m, hm⟩ :=
    backfillRows_filter_single _ db.nextImageId p hndo hporph
  refine ⟨m, ?_⟩
  rw [migrate_post_images]
  simp only [List.filter_append, horphan, hm, List.nil_append]

/-- Witness for the amended C4: the orphan legacy video post receives exactly
one backfilled row with kind `"image"`. -/
theorem backfill_synthesizes_default_image_row_witness :
    ∃ newId, (migrate_post_images orphanVideoDB).postImages.filter
        (fun r => r.photo_id ==
          ({ id := 7, cloudinary_url := "http://u/v",
             cloudinary_public_id := "vidpid", media_type := "video",
             caption := none } : PhotoRow).id) =
      [{ id := newId, photo_id := 7, cloudinary_url := "http://u/v",
         cloudinary_public_id := "vidpid", media_type := "image",
         display_order := 0 }] :=
  backfill_synthesizes_default_image_row orphanVideoDB
    { id := 7, cloudinary_url := "http://u/v", cloudinary_public_id := "vidpid",
      media_type := "video", caption := none }
    (by decide) (by decide) (by decide)

/-- C8: each migration step is idempotent, and running the two-step sequence
twice from any starting state yields the same schema flags and row set as
running it once. -/
theorem migrations_idempotent (db : DB) :
    migrate_media_type (migrate_media_type db) = migrate_media_type db ∧
    migrate_post_images (migrate_post_images db) = migrate_post_images db ∧
    migrate_post_images (migrate_media_type (migrate_post_images
        (migrate_media_type db))) =
      migrate_post_images (migrate_media_type db) := by
  have h2 : ∀ d : DB,
      migrate_post_images (migrate_post_images d) = migrate_post_images d := by
    intro d
    apply migrate_post_images_noop
    intro p hp
    exact migrate_post_images_covers d p hp
  refine ⟨?_, h2 db, ?_⟩
  · exact migrate_media_type_noop _ (migrate_media_type_flags db).1
      (migrate_media_type_flags db).2
  · have hm1 : migrate_media_type (migrate_post_images (migrate_media_type db)) =
        migrate_post_images (migrate_media_type db) := by
      apply migrate_media_type_noop
      · rw [(migrate_post_images_preserves _).1]
        exact (migrate_media_type_flags db).1
      · rw [(migrate_post_images_preserves _).2.1]
        exact (migrate_media_type_flags db).2
    rw [hm1]
    exact h2 _

end Sharayunet
